import Mathlib

/-!
Shallow embedding of the camera-info persistence and lifecycle logic of
camera_calibration/nodes/image_publisher.py.

Modelling conventions:
- The float matrix entries of a sensor_msgs/CameraInfo message are modelled
  as rationals. Every operation the program performs on them is an exact
  copy or an exact halving of an integer, so no floating-point rounding is
  observable in any claim.
- A YAML mapping read or written by the program is modelled as a record of
  optional fields (a missing key is none), exactly the keys the program
  touches.
- The filesystem is a partial map from path strings to file contents; a
  file either parses to a YamlData mapping or is unparseable.
- Python exceptions become Except values; the try/except wrapper of the
  service handler becomes a total function returning the response record.
-/

namespace CameraCalibration

/-- Python a-or-b on integers: 0 is falsy, so the result is b when a = 0. -/
def pyOrNat (a b : Nat) : Nat := if a = 0 then b else a

/-- Python a-or-b on strings: the empty string is falsy. -/
def pyOrString (a b : String) : String := if a = "" then b else a

/-- sensor_msgs/CameraInfo, restricted to the fields the program touches.
frame_id stands for header.frame_id. -/
structure CameraInfo where
  width : Nat
  height : Nat
  k : List ℚ
  d : List ℚ
  r : List ℚ
  p : List ℚ
  distortion_model : String
  frame_id : String
deriving DecidableEq

/-- CameraInfo(): the ROS message default, all fields zero or empty. -/
def CameraInfo.new : CameraInfo :=
  { width := 0, height := 0, k := [], d := [], r := [], p := [],
    distortion_model := "", frame_id := "" }

/-- One rows/cols/data block of the calibration YAML format. -/
structure MatrixBlock where
  rows : Nat
  cols : Nat
  data : List ℚ
deriving DecidableEq

/-- The YAML mapping exchanged on disk; a missing key is none. -/
structure YamlData where
  camera_name : Option String
  image_width : Option Nat
  image_height : Option Nat
  camera_matrix : Option MatrixBlock
  distortion_model : Option String
  distortion_coefficients : Option MatrixBlock
  rectification_matrix : Option MatrixBlock
  projection_matrix : Option MatrixBlock
deriving DecidableEq

/-- A file on disk: either yaml.safe_load succeeds giving a mapping, or
parsing fails. -/
inductive FileContent where
  | parseable (d : YamlData)
  | unparseable
deriving DecidableEq

/-- The filesystem: which paths exist and what they hold. -/
def FileSystem := String → Option FileContent

inductive LoadError where
  | notFound (path : String)
  | parseError
deriving DecidableEq

/-- Body of load_camera_info_from_yaml after yaml.safe_load: each field is
read with data.get(key, default), mirroring lines 21-30 of the source. -/
def load_from_yaml_data (data : YamlData) : CameraInfo :=
  { width := data.image_width.getD 0
    height := data.image_height.getD 0
    k := (data.camera_matrix.map MatrixBlock.data).getD []
    d := (data.distortion_coefficients.map MatrixBlock.data).getD []
    r := (data.rectification_matrix.map MatrixBlock.data).getD []
    p := (data.projection_matrix.map MatrixBlock.data).getD []
    distortion_model := data.distortion_model.getD "plumb_bob"
    frame_id := data.camera_name.getD "" }

/-- load_camera_info_from_yaml: FileNotFoundError when the path does not
exist, a parse error when the content is not a mapping, otherwise the
CameraInfo assembled by load_from_yaml_data. -/
def load_camera_info_from_yaml (fs : FileSystem) (yaml_path : String) :
    Except LoadError CameraInfo :=
  match fs yaml_path with
  | none => Except.error (LoadError.notFound yaml_path)
  | some FileContent.unparseable => Except.error LoadError.parseError
  | some (FileContent.parseable data) => Except.ok (load_from_yaml_data data)

/-- posixpath.dirname on the character list of a path: keep everything up
to the last slash, then strip trailing slashes unless the result is all
slashes. -/
def dirnameChars (l : List Char) : List Char :=
  let head := (l.reverse.dropWhile (fun c => c ≠ '/')).reverse
  if head ≠ [] ∧ ¬ head.all (fun c => c = '/') then
    (head.reverse.dropWhile (fun c => c = '/')).reverse
  else head

/-- os.path.dirname for POSIX paths. -/
def dirname (pa : String) : String := String.mk (dirnameChars pa.data)

/-- The pure part of save_camera_info_to_yaml: the mapping written to disk
(lines 34-43 of the source). Empty R is replaced by the identity, empty P
by twelve zeros; camera_name follows the override, frame_id, camera
fallback chain. -/
def save_yaml_data (ci : CameraInfo) (camera_name : String) : YamlData :=
  { camera_name := some (pyOrString camera_name (pyOrString ci.frame_id "camera"))
    image_width := some ci.width
    image_height := some ci.height
    camera_matrix := some ⟨3, 3, ci.k⟩
    distortion_model := some ci.distortion_model
    distortion_coefficients := some ⟨1, ci.d.length, ci.d⟩
    rectification_matrix :=
      some ⟨3, 3, if ci.r = [] then [1,0,0,0,1,0,0,0,1] else ci.r⟩
    projection_matrix :=
      some ⟨3, 4, if ci.p = [] then List.replicate 12 0 else ci.p⟩ }

inductive SaveError where
  | mkdirFailed (dir : String)
  | writeFailed (path : String)
deriving DecidableEq

/-- str(e) for the exceptions the save path can raise. -/
def SaveError.text : SaveError → String
  | SaveError.mkdirFailed dir =>
      "[Errno 2] No such file or directory: " ++ dir
  | SaveError.writeFailed path =>
      "[Errno 13] Permission denied: " ++ path

/-- save_camera_info_to_yaml. os.makedirs(os.path.dirname(path),
exist_ok=True) raises FileNotFoundError when the dirname is empty (a bare
filename), since os.mkdir of the empty string fails and exist_ok only
forgives an existing directory. The abstract writable predicate stands for
the filesystem permitting the open-for-write and the directory creation.
On success the function returns the path together with the mapping
written there. -/
def save_camera_info_to_yaml (writable : String → Bool) (ci : CameraInfo)
    (yaml_path : String) (camera_name : String) :
    Except SaveError (String × YamlData) :=
  if dirname yaml_path = "" then
    Except.error (SaveError.mkdirFailed (dirname yaml_path))
  else if writable yaml_path then
    Except.ok (yaml_path, save_yaml_data ci camera_name)
  else
    Except.error (SaveError.writeFailed yaml_path)

/-- The filesystem after a successful write of mapping d at path. -/
def fs_write (fs : FileSystem) (path : String) (d : YamlData) : FileSystem :=
  fun q => if q = path then some (FileContent.parseable d) else fs q

/-- The part of SimpleCameraNode state the camera-info lifecycle touches.
cap_width and cap_height are the dimensions the OpenCV capture currently
reports (0 when unknown); namespace_stripped is the node namespace with
slashes stripped and node_name is the node name. -/
structure NodeState where
  frame_id : String
  yaml_path : String
  cap_width : Nat
  cap_height : Nat
  namespace_stripped : String
  node_name : String
  camera_info_msg : Option CameraInfo
deriving DecidableEq

/-- The default CameraInfo synthesized in __init__ when no stored record
could be loaded (lines 101-113 of the source): device dimensions with a
640x480 fallback, K and P built from half dimensions, identity R, empty D,
the configured frame_id, and the untouched message default for
distortion_model. -/
def default_camera_info (frame_id : String) (cap_w cap_h : Nat) : CameraInfo :=
  let w := pyOrNat cap_w 640
  let h := pyOrNat cap_h 480
  { width := w
    height := h
    k := [1, 0, (w : ℚ)/2, 0, 1, (h : ℚ)/2, 0, 0, 1]
    d := []
    r := [1,0,0,0,1,0,0,0,1]
    p := [1, 0, (w : ℚ)/2, 0, 0, 1, (h : ℚ)/2, 0, 0, 0, 1, 0]
    distortion_model := CameraInfo.new.distortion_model
    frame_id := frame_id }

/-- The camera_info_msg established by __init__ (lines 89-114): when the
path exists, try to load it, filling an empty frame label with the
configured frame_id; any load failure is only logged; when nothing was
loaded, synthesize the default record. -/
def init_camera_info (fs : FileSystem) (yaml_path frame_id : String)
    (cap_w cap_h : Nat) : CameraInfo :=
  let loaded : Option CameraInfo :=
    match fs yaml_path with
    | none => none
    | some _ =>
      match load_camera_info_from_yaml fs yaml_path with
      | Except.ok ci =>
          some (if ci.frame_id = "" then { ci with frame_id := frame_id } else ci)
      | Except.error _ => none
  match loaded with
  | some ci => ci
  | none => default_camera_info frame_id cap_w cap_h

/-- The NodeState right after __init__ finishes. -/
def initState (fs : FileSystem) (frame_id yaml_path ns name : String)
    (cap_w cap_h : Nat) : NodeState :=
  { frame_id := frame_id
    yaml_path := yaml_path
    cap_width := cap_w
    cap_height := cap_h
    namespace_stripped := ns
    node_name := name
    camera_info_msg :=
      some (init_camera_info fs yaml_path frame_id cap_w cap_h) }

/-- The in-place patch handle_set_camera_info applies to the request
(lines 123-128): an empty frame label becomes the configured frame_id, and
when width or height is zero BOTH are reassigned to the device-reported
dimension, each keeping the request value only when the device reports
zero for it. -/
def patch_request (st : NodeState) (ci : CameraInfo) : CameraInfo :=
  let ci1 := if ci.frame_id = "" then { ci with frame_id := st.frame_id } else ci
  if ci1.width = 0 ∨ ci1.height = 0 then
    { ci1 with
      width := pyOrNat st.cap_width ci1.width
      height := pyOrNat st.cap_height ci1.height }
  else ci1

structure SetCameraInfoResponse where
  success : Bool
  status_message : String
deriving DecidableEq

/-- handle_set_camera_info (lines 120-140): patch the request, install it
as the current record, then persist; the try/except turns any save
exception into a success=false response, and the already-installed record
stays. -/
def handle_set_camera_info (writable : String → Bool) (st : NodeState)
    (request : CameraInfo) : NodeState × SetCameraInfoResponse :=
  let ci := patch_request st request
  let resp :=
    match save_camera_info_to_yaml writable ci st.yaml_path
        (pyOrString st.namespace_stripped st.node_name) with
    | Except.ok (pa, _) =>
        SetCameraInfoResponse.mk true ("Camera info saved to " ++ pa)
    | Except.error e =>
        SetCameraInfoResponse.mk false ("Error saving camera info: " ++ e.text)
  ({ st with camera_info_msg := some ci }, resp)

/-- The camera-info message published by one timer tick: a copy of the
current record with the capture stamp and the configured frame_id. -/
structure StampedCameraInfo where
  stamp : Nat
  info : CameraInfo
deriving DecidableEq

inductive PyError where
  | attributeError
deriving DecidableEq

/-- timer_callback (lines 142-158), restricted to its camera-info effect:
a failed frame read publishes nothing; otherwise a deepcopy of the current
record is stamped and published with header.frame_id set to the configured
frame_id. Were the current record None, setting header.stamp on the copied
None would raise AttributeError. The image publication carries no
lifecycle state and is omitted. -/
def timer_callback (st : NodeState) (read_ok : Bool) (stamp : Nat) :
    Except PyError (NodeState × Option StampedCameraInfo) :=
  if read_ok = false then Except.ok (st, none)
  else
    match st.camera_info_msg with
    | none => Except.error PyError.attributeError
    | some ci =>
        Except.ok (st, some ⟨stamp, { ci with frame_id := st.frame_id }⟩)

/-- The lifecycle invariant of C10: a current record is present. -/
def hasCurrentInfo (st : NodeState) : Prop := st.camera_info_msg ≠ none

instance (st : NodeState) : Decidable (hasCurrentInfo st) := by
  unfold hasCurrentInfo
  infer_instance

/-!
Theorems settling the claims.
-/

/-- C6: for every record, saving with an empty R sequence writes
rectification_matrix data 1,0,0,0,1,0,0,0,1 (so a subsequent load returns
the identity), and saving with an empty P sequence writes
projection_matrix data of 12 zeros; non-empty R and P are written
verbatim. -/
theorem C6_default_substitution (ci : CameraInfo) (cname : String) :
    (save_yaml_data ci cname).rectification_matrix.map MatrixBlock.data =
      some (if ci.r = [] then [1,0,0,0,1,0,0,0,1] else ci.r) ∧
    (save_yaml_data ci cname).projection_matrix.map MatrixBlock.data =
      some (if ci.p = [] then List.replicate 12 0 else ci.p) ∧
    (load_from_yaml_data (save_yaml_data ci cname)).r =
      (if ci.r = [] then [1,0,0,0,1,0,0,0,1] else ci.r) ∧
    (load_from_yaml_data (save_yaml_data ci cname)).p =
      (if ci.p = [] then List.replicate 12 0 else ci.p) := by
  refine ⟨?_, ?_, ?_, ?_⟩ <;> simp [save_yaml_data, load_from_yaml_data]

/-- C7: the camera_name written by save follows the fallback chain: the
override when non-empty, else the record frame label when non-empty, else
the literal camera; the empty-empty case therefore yields camera. -/
theorem C7_camera_name_fallback (ci : CameraInfo) (cname : String) :
    (save_yaml_data ci cname).camera_name =
      some (if cname = ""
            then (if ci.frame_id = "" then "camera" else ci.frame_id)
            else cname) := by
  simp [save_yaml_data, pyOrString]

/-- C8 as stated is false: for a path that is a bare filename with no
directory component, os.path.dirname gives the empty string and
os.makedirs of the empty string raises FileNotFoundError even with
exist_ok, so save fails rather than writing the file, writability
notwithstanding. -/
theorem C8_counterexample :
    save_camera_info_to_yaml (fun _ => true) CameraInfo.new "cam.yaml" "" =
      Except.error (SaveError.mkdirFailed "") := rfl

/-- C8 amended: for every path whose directory component is non-empty,
save creates any missing parent directories and (permissions permitting)
succeeds, returning the path and writing the save_yaml_data mapping. -/
theorem C8_amended_parent_dirs (writable : String → Bool) (ci : CameraInfo)
    (pa cname : String) (hdir : dirname pa ≠ "") (hwr : writable pa = true) :
    save_camera_info_to_yaml writable ci pa cname =
      Except.ok (pa, save_yaml_data ci cname) := by
  simp [save_camera_info_to_yaml, hdir, hwr]

/-- Witness for C8 amended at a concrete path with a parent directory. -/
theorem C8_amended_parent_dirs_witness :
    save_camera_info_to_yaml (fun _ => true) CameraInfo.new "cal/cam.yaml" "" =
      Except.ok ("cal/cam.yaml", save_yaml_data CameraInfo.new "") :=
  C8_amended_parent_dirs (fun _ => true) CameraInfo.new "cal/cam.yaml" ""
    (by decide) rfl

/-- C3: for every record x with non-empty R, non-empty P and a non-empty
frame label, a successful save of x with no camera-name override followed
by a load of the written path returns x field-for-field; the frame label
travels verbatim through the camera_name key. -/
theorem C3_save_load_round_trip (fs : FileSystem) (writable : String → Bool)
    (x : CameraInfo) (pa : String) (out : String × YamlData)
    (hr : x.r ≠ []) (hp : x.p ≠ []) (hf : x.frame_id ≠ "")
    (hsave : save_camera_info_to_yaml writable x pa "" = Except.ok out) :
    load_camera_info_from_yaml (fs_write fs out.1 out.2) out.1 =
      Except.ok x := by
  unfold save_camera_info_to_yaml at hsave
  split at hsave
  · exact absurd hsave (by simp)
  · split at hsave
    · rw [Except.ok.injEq] at hsave
      subst hsave
      simp [load_camera_info_from_yaml, fs_write, load_from_yaml_data,
            save_yaml_data, pyOrString, hr, hp, hf]
    · exact absurd hsave (by simp)

def x3 : CameraInfo :=
  { width := 640, height := 480, k := [1,0,320,0,1,240,0,0,1], d := [0],
    r := [1,0,0,0,1,0,0,0,1], p := [1,0,320,0,0,1,240,0,0,0,1,0],
    distortion_model := "plumb_bob", frame_id := "cam0" }

/-- Witness for C3 at a concrete record and path. -/
theorem C3_save_load_round_trip_witness :
    load_camera_info_from_yaml
      (fs_write (fun _ => none) "cal/cam.yaml" (save_yaml_data x3 ""))
      "cal/cam.yaml" = Except.ok x3 :=
  C3_save_load_round_trip (fun _ => none) (fun _ => true) x3 "cal/cam.yaml"
    ("cal/cam.yaml", save_yaml_data x3 "") (by decide) (by decide) (by decide)
    rfl

/-- C4: load of a nonexistent path fails with the not-found error, and
startup against a nonexistent or unparseable path produces the Defaulted
record: device dimensions with the 640 by 480 fallback, K built from half
dimensions, empty D, identity R, P built from half dimensions, and the
configured default frame label. -/
theorem C4_missing_file_defaults (fs : FileSystem) (yaml_path frame_id : String)
    (cap_w cap_h : Nat)
    (hmiss : fs yaml_path = none ∨ fs yaml_path = some FileContent.unparseable) :
    (fs yaml_path = none →
      load_camera_info_from_yaml fs yaml_path =
        Except.error (LoadError.notFound yaml_path)) ∧
    init_camera_info fs yaml_path frame_id cap_w cap_h =
      default_camera_info frame_id cap_w cap_h ∧
    (default_camera_info frame_id cap_w cap_h).width =
      (if cap_w = 0 then 640 else cap_w) ∧
    (default_camera_info frame_id cap_w cap_h).height =
      (if cap_h = 0 then 480 else cap_h) ∧
    (default_camera_info frame_id cap_w cap_h).k =
      [1, 0, (((if cap_w = 0 then 640 else cap_w) : Nat) : ℚ)/2, 0, 1,
       (((if cap_h = 0 then 480 else cap_h) : Nat) : ℚ)/2, 0, 0, 1] ∧
    (default_camera_info frame_id cap_w cap_h).d = [] ∧
    (default_camera_info frame_id cap_w cap_h).r = [1,0,0,0,1,0,0,0,1] ∧
    (default_camera_info frame_id cap_w cap_h).p =
      [1, 0, (((if cap_w = 0 then 640 else cap_w) : Nat) : ℚ)/2, 0,
       0, 1, (((if cap_h = 0 then 480 else cap_h) : Nat) : ℚ)/2, 0, 0, 0, 1, 0] ∧
    (default_camera_info frame_id cap_w cap_h).frame_id = frame_id := by
  refine ⟨?_, ?_, ?_, ?_, ?_, ?_, ?_, ?_, ?_⟩
  · intro h
    simp [load_camera_info_from_yaml, h]
  · rcases hmiss with h | h <;>
      simp [init_camera_info, h, load_camera_info_from_yaml]
  all_goals simp [default_camera_info, pyOrNat]

/-- Witness for C4 on the empty filesystem with a device reporting zero. -/
theorem C4_missing_file_defaults_witness :
    (((fun _ => none) : FileSystem) "missing.yaml" = none →
      load_camera_info_from_yaml (fun _ => none) "missing.yaml" =
        Except.error (LoadError.notFound "missing.yaml")) ∧
    init_camera_info (fun _ => none) "missing.yaml" "camera_link" 0 0 =
      default_camera_info "camera_link" 0 0 ∧
    (default_camera_info "camera_link" 0 0).width =
      (if (0 : Nat) = 0 then 640 else 0) ∧
    (default_camera_info "camera_link" 0 0).height =
      (if (0 : Nat) = 0 then 480 else 0) ∧
    (default_camera_info "camera_link" 0 0).k =
      [1, 0, (((if (0 : Nat) = 0 then 640 else 0) : Nat) : ℚ)/2, 0, 1,
       (((if (0 : Nat) = 0 then 480 else 0) : Nat) : ℚ)/2, 0, 0, 1] ∧
    (default_camera_info "camera_link" 0 0).d = [] ∧
    (default_camera_info "camera_link" 0 0).r = [1,0,0,0,1,0,0,0,1] ∧
    (default_camera_info "camera_link" 0 0).p =
      [1, 0, (((if (0 : Nat) = 0 then 640 else 0) : Nat) : ℚ)/2, 0,
       0, 1, (((if (0 : Nat) = 0 then 480 else 0) : Nat) : ℚ)/2, 0, 0, 0, 1, 0] ∧
    (default_camera_info "camera_link" 0 0).frame_id = "camera_link" :=
  C4_missing_file_defaults (fun _ => none) "missing.yaml" "camera_link" 0 0
    (Or.inl rfl)

def stC1 : NodeState :=
  { frame_id := "camera_link", yaml_path := "cal/cam.yaml",
    cap_width := 1280, cap_height := 480,
    namespace_stripped := "", node_name := "simple_camera_node",
    camera_info_msg := some CameraInfo.new }

def reqC1 : CameraInfo :=
  { width := 0, height := 720, k := [1,0,640,0,1,360,0,0,1], d := [],
    r := [1,0,0,0,1,0,0,0,1], p := [1,0,640,0,0,1,360,0,0,0,1,0],
    distortion_model := "plumb_bob", frame_id := "cam" }

/-- C1 as stated is false: in a request whose width is zero and whose
height is the non-zero 720, against a device reporting 1280 by 480, the
handler does not keep the supplied height; the lines guarded by the
width-or-height-zero test reassign BOTH dimensions from the device, so the
stored height becomes 480. -/
theorem C1_counterexample :
    reqC1.width = 0 ∧ reqC1.height = 720 ∧ stC1.cap_height = 480 ∧
    (handle_set_camera_info (fun _ => true) stC1 reqC1).1.camera_info_msg.map
      CameraInfo.height = some 480 ∧
    ¬ ((handle_set_camera_info (fun _ => true) stC1 reqC1).1.camera_info_msg.map
        CameraInfo.height = some reqC1.height) := by
  refine ⟨rfl, rfl, rfl, rfl, ?_⟩
  intro h
  simp [handle_set_camera_info, patch_request, stC1, reqC1, pyOrNat] at h

/-- C1 amended: when the request width or height is zero, BOTH dimensions
are refilled from the device-reported dimensions, each keeping the request
value only when the device reports zero for it; when both request
dimensions are non-zero they are kept as supplied. The patched record is
what the handler installs as the current record. -/
theorem C1_amended_dimension_fill (writable : String → Bool) (st : NodeState)
    (req : CameraInfo) :
    (handle_set_camera_info writable st req).1.camera_info_msg =
      some (patch_request st req) ∧
    (if req.width = 0 ∨ req.height = 0 then
       (patch_request st req).width =
         (if st.cap_width = 0 then req.width else st.cap_width) ∧
       (patch_request st req).height =
         (if st.cap_height = 0 then req.height else st.cap_height)
     else
       (patch_request st req).width = req.width ∧
       (patch_request st req).height = req.height) := by
  refine ⟨rfl, ?_⟩
  by_cases hf : req.frame_id = "" <;>
    by_cases h : req.width = 0 ∨ req.height = 0 <;>
      simp [patch_request, pyOrNat, hf, h]

def stC2 : NodeState :=
  { frame_id := "camera_link", yaml_path := "cal/cam.yaml",
    cap_width := 640, cap_height := 480,
    namespace_stripped := "", node_name := "simple_camera_node",
    camera_info_msg := some CameraInfo.new }

def reqC2 : CameraInfo :=
  { width := 640, height := 480, k := [1,0,320,0,1,240,0,0,1], d := [0],
    r := [1,0,0,0,1,0,0,0,1], p := [1,0,320,0,0,1,240,0,0,0,1,0],
    distortion_model := "plumb_bob", frame_id := "cam" }

/-- C2: when the persist step fails, the handler returns success false
with a descriptive message naming the cause, throws nothing (it is a total
function into the response type), and the in-memory current record has
already been replaced by the patched request record, so a subsequent
publish read returns the new, unpersisted record. -/
theorem C2_persist_failure_no_rollback (writable : String → Bool)
    (st : NodeState) (req : CameraInfo) (e : SaveError)
    (hfail : save_camera_info_to_yaml writable (patch_request st req)
        st.yaml_path (pyOrString st.namespace_stripped st.node_name) =
      Except.error e) :
    (handle_set_camera_info writable st req).2.success = false ∧
    (handle_set_camera_info writable st req).2.status_message =
      "Error saving camera info: " ++ e.text ∧
    (handle_set_camera_info writable st req).1.camera_info_msg =
      some (patch_request st req) ∧
    (∀ stamp, timer_callback (handle_set_camera_info writable st req).1
        true stamp =
      Except.ok ((handle_set_camera_info writable st req).1,
        some ⟨stamp, { patch_request st req with frame_id := st.frame_id }⟩)) := by
  refine ⟨?_, ?_, rfl, ?_⟩
  · simp [handle_set_camera_info, hfail]
  · simp [handle_set_camera_info, hfail]
  · intro stamp
    simp [timer_callback, handle_set_camera_info]

/-- Witness for C2: an unwritable target makes save fail while the
in-memory record is already the patched request. -/
theorem C2_persist_failure_no_rollback_witness :
    (handle_set_camera_info (fun _ => false) stC2 reqC2).2.success = false ∧
    (handle_set_camera_info (fun _ => false) stC2 reqC2).2.status_message =
      "Error saving camera info: " ++
        (SaveError.writeFailed "cal/cam.yaml").text ∧
    (handle_set_camera_info (fun _ => false) stC2 reqC2).1.camera_info_msg =
      some (patch_request stC2 reqC2) ∧
    timer_callback (handle_set_camera_info (fun _ => false) stC2 reqC2).1
        true 7 =
      Except.ok ((handle_set_camera_info (fun _ => false) stC2 reqC2).1,
        some ⟨7, { patch_request stC2 reqC2 with frame_id := stC2.frame_id }⟩) := by
  have h := C2_persist_failure_no_rollback (fun _ => false) stC2 reqC2
    (SaveError.writeFailed "cal/cam.yaml") rfl
  exact ⟨h.1, h.2.1, h.2.2.1, h.2.2.2 7⟩

def reqC5 : CameraInfo :=
  { width := 0, height := 0, k := [], d := [], r := [], p := [],
    distortion_model := "", frame_id := "" }

/-- C5: from any current record, a set-request with zero width and height,
empty frame label and empty K, D, R, P, against a device reporting 1280 by
720, stores a mapping with image_width 1280, image_height 720, identity
rectification data, twelve-zero projection data and EMPTY camera_matrix
data (K is not back-filled from the device), while the in-memory record
carries the configured default frame label. -/
theorem C5_zero_request_scenario (writable : String → Bool) (st : NodeState)
    (hw : st.cap_width = 1280) (hh : st.cap_height = 720)
    (hdir : dirname st.yaml_path ≠ "") (hwr : writable st.yaml_path = true) :
    save_camera_info_to_yaml writable (patch_request st reqC5) st.yaml_path
        (pyOrString st.namespace_stripped st.node_name) =
      Except.ok (st.yaml_path,
        save_yaml_data (patch_request st reqC5)
          (pyOrString st.namespace_stripped st.node_name)) ∧
    (save_yaml_data (patch_request st reqC5)
        (pyOrString st.namespace_stripped st.node_name)).image_width =
      some 1280 ∧
    (save_yaml_data (patch_request st reqC5)
        (pyOrString st.namespace_stripped st.node_name)).image_height =
      some 720 ∧
    (save_yaml_data (patch_request st reqC5)
        (pyOrString st.namespace_stripped st.node_name)).camera_matrix.map
      MatrixBlock.data = some [] ∧
    (save_yaml_data (patch_request st reqC5)
        (pyOrString st.namespace_stripped st.node_name)).rectification_matrix.map
      MatrixBlock.data = some [1,0,0,0,1,0,0,0,1] ∧
    (save_yaml_data (patch_request st reqC5)
        (pyOrString st.namespace_stripped st.node_name)).projection_matrix.map
      MatrixBlock.data = some (List.replicate 12 0) ∧
    (handle_set_camera_info writable st reqC5).1.camera_info_msg =
      some (patch_request st reqC5) ∧
    (patch_request st reqC5).frame_id = st.frame_id ∧
    (patch_request st reqC5).k = [] := by
  have hpatch : patch_request st reqC5 =
      { width := 1280, height := 720, k := [], d := [], r := [], p := [],
        distortion_model := "", frame_id := st.frame_id } := by
    simp [patch_request, reqC5, pyOrNat, hw, hh]
  refine ⟨?_, ?_, ?_, ?_, ?_, ?_, rfl, ?_, ?_⟩
  · simp [save_camera_info_to_yaml, hdir, hwr]
  all_goals rw [hpatch]
  all_goals simp [save_yaml_data]

def stC5 : NodeState :=
  { frame_id := "camera_link", yaml_path := "cal/cam.yaml",
    cap_width := 1280, cap_height := 720,
    namespace_stripped := "", node_name := "simple_camera_node",
    camera_info_msg := some CameraInfo.new }

/-- Witness for C5 at a concrete state. -/
theorem C5_zero_request_scenario_witness :
    save_camera_info_to_yaml (fun _ => true) (patch_request stC5 reqC5)
        stC5.yaml_path
        (pyOrString stC5.namespace_stripped stC5.node_name) =
      Except.ok (stC5.yaml_path,
        save_yaml_data (patch_request stC5 reqC5)
          (pyOrString stC5.namespace_stripped stC5.node_name)) ∧
    (save_yaml_data (patch_request stC5 reqC5)
        (pyOrString stC5.namespace_stripped stC5.node_name)).image_width =
      some 1280 ∧
    (save_yaml_data (patch_request stC5 reqC5)
        (pyOrString stC5.namespace_stripped stC5.node_name)).image_height =
      some 720 ∧
    (save_yaml_data (patch_request stC5 reqC5)
        (pyOrString stC5.namespace_stripped stC5.node_name)).camera_matrix.map
      MatrixBlock.data = some [] ∧
    (save_yaml_data (patch_request stC5 reqC5)
        (pyOrString stC5.namespace_stripped stC5.node_name)).rectification_matrix.map
      MatrixBlock.data = some [1,0,0,0,1,0,0,0,1] ∧
    (save_yaml_data (patch_request stC5 reqC5)
        (pyOrString stC5.namespace_stripped stC5.node_name)).projection_matrix.map
      MatrixBlock.data = some (List.replicate 12 0) ∧
    (handle_set_camera_info (fun _ => true) stC5 reqC5).1.camera_info_msg =
      some (patch_request stC5 reqC5) ∧
    (patch_request stC5 reqC5).frame_id = stC5.frame_id ∧
    (patch_request stC5 reqC5).k = [] :=
  C5_zero_request_scenario (fun _ => true) stC5 rfl rfl (by decide) rfl

/-- C9: one publish tick returns the state unchanged in every field and
publishes a copy of the current record stamped with the capture timestamp
and carrying the configured default frame label, whatever frame label the
stored record holds; mutating the copy is invisible to the stored
record. -/
theorem C9_publish_reads_copy (st : NodeState) (ci : CameraInfo)
    (stamp : Nat) (h : st.camera_info_msg = some ci) :
    timer_callback st true stamp =
      Except.ok (st, some ⟨stamp, { ci with frame_id := st.frame_id }⟩) := by
  simp [timer_callback, h]

def ciC9 : CameraInfo :=
  { width := 640, height := 480, k := [1,0,320,0,1,240,0,0,1], d := [],
    r := [1,0,0,0,1,0,0,0,1], p := [1,0,320,0,0,1,240,0,0,0,1,0],
    distortion_model := "plumb_bob", frame_id := "other_frame" }

def stC9 : NodeState :=
  { frame_id := "camera_link", yaml_path := "cal/cam.yaml",
    cap_width := 640, cap_height := 480,
    namespace_stripped := "", node_name := "simple_camera_node",
    camera_info_msg := some ciC9 }

/-- Witness for C9: the stored frame label other_frame is replaced by the
configured camera_link on the published copy, and the state is returned
unchanged. -/
theorem C9_publish_reads_copy_witness :
    timer_callback stC9 true 5 =
      Except.ok (stC9, some ⟨5, { ciC9 with frame_id := stC9.frame_id }⟩) :=
  C9_publish_reads_copy stC9 ciC9 5 rfl

/-- C10: construction establishes a current record unconditionally, the
set-request handler always installs one (persist outcome aside), and a
successful publish tick returns a state that still holds one, so after
construction a current record is always present. -/
theorem C10_current_record_invariant (fs : FileSystem)
    (frame_id yaml_path ns nm : String) (cap_w cap_h : Nat)
    (writable : String → Bool) (st : NodeState) (req : CameraInfo)
    (read_ok : Bool) (stamp : Nat) :
    hasCurrentInfo (initState fs frame_id yaml_path ns nm cap_w cap_h) ∧
    hasCurrentInfo (handle_set_camera_info writable st req).1 ∧
    (∀ res, timer_callback st read_ok stamp = Except.ok res →
      hasCurrentInfo st → hasCurrentInfo res.1) := by
  refine ⟨by simp [initState, hasCurrentInfo],
          by simp [handle_set_camera_info, hasCurrentInfo], ?_⟩
  intro res h hst
  unfold timer_callback at h
  by_cases hro : read_ok = false
  · rw [if_pos hro] at h
    injection h with h2
    subst h2
    exact hst
  · rw [if_neg hro] at h
    cases hci : st.camera_info_msg with
    | none => rw [hci] at h; simp at h
    | some ci =>
        rw [hci] at h
        injection h with h2
        subst h2
        exact hst

def stC10 : NodeState :=
  { frame_id := "camera_link", yaml_path := "cal/cam.yaml",
    cap_width := 640, cap_height := 480,
    namespace_stripped := "", node_name := "simple_camera_node",
    camera_info_msg := some CameraInfo.new }

/-- Witness for C10 at concrete arguments. -/
theorem C10_current_record_invariant_witness :
    hasCurrentInfo (initState (fun _ => none) "camera_link" "cal/cam.yaml"
      "" "simple_camera_node" 640 480) ∧
    hasCurrentInfo
      (handle_set_camera_info (fun _ => true) stC10 CameraInfo.new).1 ∧
    hasCurrentInfo stC10 := by
  have h := C10_current_record_invariant (fun _ => none) "camera_link"
    "cal/cam.yaml" "" "simple_camera_node" 640 480 (fun _ => true) stC10
    CameraInfo.new true 3
  exact ⟨h.1, h.2.1,
    h.2.2 (stC10, some ⟨3, { CameraInfo.new with frame_id := stC10.frame_id }⟩)
      rfl (by decide)⟩

end CameraCalibration
